import Mathlib

/-!
Verification of `txtgen/modules/decoders/rnn_decoders.py`.

The file shallowly embeds the two decoder classes of the source,
`BasicRNNDecoder` and `AttentionRNNDecoder`, together with the pieces of
Python semantics their configuration handling relies on: dictionaries with
`KeyError` / `TypeError` behaviour, and namedtuple construction by keyword
(which raises `TypeError` on an unexpected keyword).  The per-step decoding
methods are embedded as pure functions parametric in the host-framework
collaborators (the recurrent cell, the sampling helper, the fully-connected
projection), exactly as the Python methods delegate to them.
-/

set_option autoImplicit false

namespace RnnDecoders

/-- A Python value, as far as the hyperparameter handling of the source
needs: `None`, booleans, integers, strings, and string-keyed dictionaries
(represented as association lists in insertion order, first match wins). -/
inductive PyVal where
  | none
  | pybool (b : Bool)
  | int (n : Int)
  | str (s : String)
  | dict (entries : List (String × PyVal))
deriving Repr

/-- First-match lookup in an association list, the semantics of reading a
key out of a Python dictionary represented in insertion order. -/
def lookupEntry {α : Type} : List (String × α) → String → Option α
  | [], _ => Option.none
  | (k0, v) :: rest, k => if k0 = k then some v else lookupEntry rest k

/-- Python `d[k] = v` on a dictionary: replace the value at the first
occurrence of `k`, or append the binding when `k` is absent. -/
def setEntry {α : Type} : List (String × α) → String → α → List (String × α)
  | [], k, v => [(k, v)]
  | (k0, v0) :: rest, k, v =>
    if k0 = k then (k, v) :: rest else (k0, v0) :: setEntry rest k v

/-- Python subscript `x[k]` with a string key: succeeds only on a
dictionary holding the key; `None` and other values raise `TypeError`, a
dictionary without the key raises `KeyError`. -/
def PyVal.subscript : PyVal → String → Except String PyVal
  | .dict es, k =>
    match lookupEntry es k with
    | some v => .ok v
    | Option.none => .error ("KeyError: " ++ k)
  | .none, _ => .error "TypeError: NoneType object is not subscriptable"
  | _, _ => .error "TypeError: object is not subscriptable"

/-- Python item assignment `x[k] = v`: succeeds only on a dictionary;
other values raise `TypeError`. -/
def PyVal.setItem : PyVal → String → PyVal → Except String PyVal
  | .dict es, k, v => .ok (.dict (setEntry es k v))
  | _, _, _ => .error "TypeError: object does not support item assignment"

/-- The first keyword of a keyword-argument list that is not among the
declared parameter names (Python reports this one in its `TypeError`). -/
def firstUnexpected {α : Type} (fields : List String) :
    List (String × α) → Option String
  | [] => Option.none
  | (k, _) :: rest =>
    if fields.contains k then firstUnexpected fields rest else some k

/-- Collect, in declaration order, the value supplied for each field of a
namedtuple; a field with no keyword raises `TypeError`. -/
def collectFields {α : Type} (kwargs : List (String × α)) :
    List String → Except String (List α)
  | [] => .ok []
  | f :: fs =>
    match lookupEntry kwargs f with
    | some v =>
      match collectFields kwargs fs with
      | .ok rest => .ok (v :: rest)
      | .error e => .error e
    | Option.none => .error ("TypeError: missing required argument " ++ f)

/-- Calling a `collections.namedtuple` class with keyword arguments only:
any keyword that is not a field name raises `TypeError: unexpected keyword
argument`, a missing field raises `TypeError`, and on success the field
values are returned in field-declaration order. -/
def namedtupleKwNew {α : Type} (fields : List String)
    (kwargs : List (String × α)) : Except String (List α) :=
  match firstUnexpected fields kwargs with
  | some k => .error ("TypeError: unexpected keyword argument " ++ k)
  | Option.none => collectFields kwargs fields

/-- The element dtypes the decoders report through `output_dtype`. -/
inductive DType where
  | float32
  | int32
deriving Repr, DecidableEq

/-- The per-field sizes the decoders report through `output_size`: either
an integer (e.g. `self._vocab_size`) or a `TensorShape` literal. -/
inductive SizeVal where
  | num (n : Nat)
  | shape (dims : List Nat)
deriving Repr, DecidableEq

/-- The outputs of `BasicRNNDecoder.step`: the namedtuple
`BasicRNNDecoderOutput(rnn_output, sample_id)` of the source. -/
structure BasicRNNDecoderOutput (O Sid : Type) where
  rnn_output : O
  sample_id : Sid
deriving Repr

/-- The field names of the `BasicRNNDecoderOutput` namedtuple, in
declaration order. -/
def BasicRNNDecoderOutput.fieldNames : List String :=
  ["rnn_output", "sample_id"]

/-- The outputs of `AttentionRNNDecoder.step`: the namedtuple
`AttentionRNNDecoderOutput(rnn_output, sample_id, cell_output,
attention_scores, attention_context)` of the source. -/
structure AttentionRNNDecoderOutput (O Sid Co Al At : Type) where
  rnn_output : O
  sample_id : Sid
  cell_output : Co
  attention_scores : Al
  attention_context : At
deriving Repr

/-- The field names of the `AttentionRNNDecoderOutput` namedtuple, in
declaration order. -/
def AttentionRNNDecoderOutput.fieldNames : List String :=
  ["rnn_output", "sample_id", "cell_output", "attention_scores",
   "attention_context"]

/-- `BasicRNNDecoder.output_dtype`: the source builds
`BasicRNNDecoderOutput(rnn_output=dtypes.float32, sample_id=dtypes.int32)`
by keyword. -/
def BasicRNNDecoder.output_dtype : Except String (List DType) :=
  namedtupleKwNew BasicRNNDecoderOutput.fieldNames
    [("rnn_output", DType.float32), ("sample_id", DType.int32)]

/-- `AttentionRNNDecoder.output_dtype`: the source builds
`AttentionRNNDecoderOutput(logits=..., predicted_ids=..., cell_output=...,
attention_scores=..., attention_context=...)` by keyword, with the keyword
names `logits` and `predicted_ids` that are not fields of the namedtuple. -/
def AttentionRNNDecoder.output_dtype : Except String (List DType) :=
  namedtupleKwNew AttentionRNNDecoderOutput.fieldNames
    [("logits", DType.float32), ("predicted_ids", DType.int32),
     ("cell_output", DType.float32), ("attention_scores", DType.float32),
     ("attention_context", DType.float32)]

/-- `BasicRNNDecoder.default_hparams`: takes the dictionary returned by
`RNNDecoderBase.default_hparams()` and overwrites the `"name"` entry with
`"basic_rnn_decoder"`.  The base dictionary is a parameter, since
`rnn_decoder_base.py` is outside this file. -/
def BasicRNNDecoder.default_hparams (base : List (String × PyVal)) :
    List (String × PyVal) :=
  setEntry base "name" (.str "basic_rnn_decoder")

/-- The literal `"attention"` dictionary installed by
`AttentionRNNDecoder.default_hparams`. -/
def attentionDefault : PyVal :=
  .dict [("type", .str "LuongAttention"),
         ("kwargs", .dict [("num_units", .int 512),
                           ("probability_fn", .str "tensorflow.nn.softmax")]),
         ("attention_layer_size", .none),
         ("alignment_history", .pybool false),
         ("output_attention", .pybool true)]

/-- `AttentionRNNDecoder.default_hparams`: the base defaults with the
`"name"` entry overwritten to `"attention_rnn_decoder"` and the
`"attention"` entry set to the fixed dictionary `attentionDefault`. -/
def AttentionRNNDecoder.default_hparams (base : List (String × PyVal)) :
    List (String × PyVal) :=
  setEntry (setEntry base "name" (.str "attention_rnn_decoder"))
    "attention" attentionDefault

/-- The record of a `get_instance(attention_class, attention_kwargs,
attention_modules)` call; `get_instance` lives in `txtgen.core.utils`, so
it is kept abstract and only the arguments it receives are recorded. -/
structure GetInstanceCall where
  className : PyVal
  kwargs : PyVal
  modules : List String
deriving Repr

/-- The decoder's recurrent-cell slot `self._cell`: either the cell the
base constructor installed, or an `AttentionWrapper` around an inner cell
with an attention mechanism and the wrapper keyword arguments. -/
inductive CellRepr where
  | base (id : Nat)
  | attentionWrapper (inner : CellRepr) (mechanism : GetInstanceCall)
      (wrapper_params : PyVal)
deriving Repr

/-- The module list the attention class name is resolved against. -/
def attention_modules : List String :=
  ["txtgen.custom", "tensorflow.contrib.seq2seq"]

/-- The attention-specific tail of `AttentionRNNDecoder.__init__`
(source lines 284-294), line by line: each Python subscript or item
assignment that can raise is an `Except` step.  `get_instance` is modelled
abstractly as recording its arguments. -/
def AttentionRNNDecoder.initAttention (n_hidden attention_keys
    attention_values_length hparams : PyVal) :
    Except String (GetInstanceCall × PyVal) := do
  let _att_params ← hparams.subscript "attention"
  let attention_class ← (← hparams.subscript "attention").subscript "class"
  let attention_kwargs ← (← hparams.subscript "attention").subscript "params"
  let attention_kwargs ← attention_kwargs.setItem "num_units" n_hidden
  let attention_kwargs ←
    attention_kwargs.setItem "memory_sequence_length" attention_values_length
  let attention_kwargs ← attention_kwargs.setItem "memory" attention_keys
  let wrapper_params ← (← hparams.subscript "attention").subscript
    "wrapper_params"
  pure (⟨attention_class, attention_kwargs, attention_modules⟩,
    wrapper_params)

/-- The effect of `AttentionRNNDecoder.__init__` on `self._cell`: run the
attention configuration, wrap the cell installed by the base constructor
in an `AttentionWrapper` with the resolved mechanism and the configured
wrapper keyword arguments, and install the wrapped cell. -/
def AttentionRNNDecoder.initCell (origCell : CellRepr)
    (n_hidden attention_keys attention_values_length hparams : PyVal) :
    Except String CellRepr :=
  match AttentionRNNDecoder.initAttention n_hidden attention_keys
      attention_values_length hparams with
  | .ok r => .ok (.attentionWrapper origCell r.1 r.2)
  | .error e => .error e

/-- A constructed `BasicRNNDecoder` together with its host-framework
collaborators, as the step methods use them: the recurrent cell
`self._cell`, the projection `tf.contrib.layers.fully_connected`, the
sampling helper `self._helper`, the initial state, and `self._vocab_size`.
All of them are opaque functions supplied by the framework. -/
structure BasicDecoderEnv (T I S O Sid : Type) where
  cell : I → S → O × S
  fully_connected : O → Nat → O
  vocab_size : Nat
  initial_state : S
  helper_init : Bool × I
  helper_sample : T → O → S → Sid
  helper_next_inputs : T → O → S → Sid → Bool × I × S

/-- `BasicRNNDecoder.initialize`: the helper's `(finished, first_inputs)`
pair extended with `self._initial_state` (tuple concatenation in the
source). -/
def BasicRNNDecoder.initializeFn {T I S O Sid : Type}
    (d : BasicDecoderEnv T I S O Sid) : Bool × I × S :=
  (d.helper_init.1, d.helper_init.2, d.initial_state)

/-- `BasicRNNDecoder.step`: run the cell, project to logits, sample with
the helper, ask the helper for the next inputs, and return the four-tuple
`(outputs, next_state, next_inputs, finished)`. -/
def BasicRNNDecoder.step {T I S O Sid : Type}
    (d : BasicDecoderEnv T I S O Sid) (time : T) (inputs : I) (state : S) :
    BasicRNNDecoderOutput O Sid × S × I × Bool :=
  let r := d.cell inputs state
  let cell_outputs := r.1
  let cell_state := r.2
  let logits := d.fully_connected cell_outputs d.vocab_size
  let sample_ids := d.helper_sample time logits cell_state
  let nxt := d.helper_next_inputs time logits cell_state sample_ids
  let finished := nxt.1
  let next_inputs := nxt.2.1
  let next_state := nxt.2.2
  (⟨logits, sample_ids⟩, next_state, next_inputs, finished)

/-- `BasicRNNDecoder.finalize`: returns `(outputs, final_state)`. -/
def BasicRNNDecoder.finalize {O S L : Type} (outputs : O) (final_state : S)
    (sequence_lengths : L) : O × S :=
  (outputs, final_state)

/-- `BasicRNNDecoder.output_size`: the namedtuple built by keyword from
`rnn_output=self._vocab_size` and `sample_id=TensorShape([])`. -/
def BasicRNNDecoder.output_size (vocab_size : Nat) :
    Except String (List SizeVal) :=
  namedtupleKwNew BasicRNNDecoderOutput.fieldNames
    [("rnn_output", SizeVal.num vocab_size),
     ("sample_id", SizeVal.shape [])]

/-- The `AttentionWrapperState` the wrapped cell threads through
`AttentionRNNDecoder.step`: the inner cell state plus the alignment and
attention tensors the step method reads off it. -/
structure AttentionWrapperState (S Al At : Type) where
  cell_state : S
  alignments : Al
  attention : At

/-- A constructed `AttentionRNNDecoder` with its collaborators.  The cell
is the attention-wrapped cell installed by the constructor, so its state
is an `AttentionWrapperState`; the helper's `sample` receives the inner
`cell_state` while its `next_inputs` receives the full wrapper state,
exactly as the source passes them. -/
structure AttnDecoderEnv (T I S O Sid Al At : Type) where
  cell : I → AttentionWrapperState S Al At → O × AttentionWrapperState S Al At
  fully_connected : O → Nat → O
  vocab_size : Nat
  initial_state : AttentionWrapperState S Al At
  helper_init : Bool × I
  helper_sample : T → O → S → Sid
  helper_next_inputs : T → O → AttentionWrapperState S Al At → Sid →
    Bool × I × AttentionWrapperState S Al At
  inner_cell_output_size : SizeVal
  state_size_alignments : SizeVal
  state_size_attention : SizeVal

/-- `AttentionRNNDecoder.initialize`: the helper's first two results and
`self._initial_state` (a three-element list in the source). -/
def AttentionRNNDecoder.initializeFn {T I S O Sid Al At : Type}
    (d : AttnDecoderEnv T I S O Sid Al At) :
    Bool × I × AttentionWrapperState S Al At :=
  let helper_init := d.helper_init
  (helper_init.1, helper_init.2, d.initial_state)

/-- `AttentionRNNDecoder.step` as written in the source: the wrapped cell
is invoked twice on the same `(inputs, state)`; the first call's output
feeds the logits, the second call's output and state feed the recorded
`cell_output`, `attention_scores`, `attention_context`, and the helper. -/
def AttentionRNNDecoder.step {T I S O Sid Al At : Type}
    (d : AttnDecoderEnv T I S O Sid Al At) (time : T) (inputs : I)
    (state : AttentionWrapperState S Al At) :
    AttentionRNNDecoderOutput O Sid O Al At ×
      AttentionWrapperState S Al At × I × Bool :=
  let r1 := d.cell inputs state
  let cell_outputs := r1.1
  let r2 := d.cell inputs state
  let wrapper_outputs := r2.1
  let wrapper_state := r2.2
  let cell_state := wrapper_state.cell_state
  let attention_scores := wrapper_state.alignments
  let attention_context := wrapper_state.attention
  let logits := d.fully_connected cell_outputs d.vocab_size
  let sample_ids := d.helper_sample time logits cell_state
  let nxt := d.helper_next_inputs time logits wrapper_state sample_ids
  let finished := nxt.1
  let next_inputs := nxt.2.1
  let next_state := nxt.2.2
  (⟨logits, sample_ids, wrapper_outputs, attention_scores,
    attention_context⟩, next_state, next_inputs, finished)

/-- The refactored `AttentionRNNDecoder.step` that invokes the wrapped
cell exactly once and uses the single result both for the logits and for
the recorded attention fields. -/
def AttentionRNNDecoder.stepRefactored {T I S O Sid Al At : Type}
    (d : AttnDecoderEnv T I S O Sid Al At) (time : T) (inputs : I)
    (state : AttentionWrapperState S Al At) :
    AttentionRNNDecoderOutput O Sid O Al At ×
      AttentionWrapperState S Al At × I × Bool :=
  let r := d.cell inputs state
  let cell_outputs := r.1
  let wrapper_outputs := r.1
  let wrapper_state := r.2
  let logits := d.fully_connected cell_outputs d.vocab_size
  let sample_ids := d.helper_sample time logits wrapper_state.cell_state
  let nxt := d.helper_next_inputs time logits wrapper_state sample_ids
  (⟨logits, sample_ids, wrapper_outputs, wrapper_state.alignments,
    wrapper_state.attention⟩, nxt.2.2, nxt.2.1, nxt.1)

/-- `AttentionRNNDecoder.finalize`: returns `(outputs, final_state)`. -/
def AttentionRNNDecoder.finalize {O S L : Type} (outputs : O)
    (final_state : S) (sequence_lengths : L) : O × S :=
  (outputs, final_state)

/-- `AttentionRNNDecoder.output_size`: the namedtuple built by keyword
from `self._vocab_size`, `TensorShape([])`, `self.cell._cell.output_size`,
and the `alignments` / `attention` components of `self.cell.state_size`. -/
def AttentionRNNDecoder.output_size {T I S O Sid Al At : Type}
    (d : AttnDecoderEnv T I S O Sid Al At) : Except String (List SizeVal) :=
  namedtupleKwNew AttentionRNNDecoderOutput.fieldNames
    [("rnn_output", SizeVal.num d.vocab_size),
     ("sample_id", SizeVal.shape []),
     ("cell_output", d.inner_cell_output_size),
     ("attention_scores", d.state_size_alignments),
     ("attention_context", d.state_size_attention)]

/-- The decoder contract the host framework's dynamic-decode driver
consumes: callable `initialize`, `step` and `finalize`, plus the
`output_size` and `output_dtype` properties. -/
structure DecoderInterface (T I S O L Sz Dt : Type) where
  initializeFn : Bool × I × S
  step : T → I → S → O × S × I × Bool
  finalize : O → S → L → O × S
  output_size : Sz
  output_dtype : Dt

/-- The decoder contract as `BasicRNNDecoder` fills it in. -/
def BasicRNNDecoder.interface {T I S O Sid L : Type}
    (d : BasicDecoderEnv T I S O Sid) :
    DecoderInterface T I S (BasicRNNDecoderOutput O Sid) L
      (Except String (List SizeVal)) (Except String (List DType)) where
  initializeFn := BasicRNNDecoder.initializeFn d
  step := BasicRNNDecoder.step d
  finalize := BasicRNNDecoder.finalize
  output_size := BasicRNNDecoder.output_size d.vocab_size
  output_dtype := BasicRNNDecoder.output_dtype

/-- The decoder contract as `AttentionRNNDecoder` fills it in. -/
def AttentionRNNDecoder.interface {T I S O Sid Al At L : Type}
    (d : AttnDecoderEnv T I S O Sid Al At) :
    DecoderInterface T I (AttentionWrapperState S Al At)
      (AttentionRNNDecoderOutput O Sid O Al At) L
      (Except String (List SizeVal)) (Except String (List DType)) where
  initializeFn := AttentionRNNDecoder.initializeFn d
  step := AttentionRNNDecoder.step d
  finalize := AttentionRNNDecoder.finalize
  output_size := AttentionRNNDecoder.output_size d
  output_dtype := AttentionRNNDecoder.output_dtype

/-- A sample stand-in for the dictionary returned by
`RNNDecoderBase.default_hparams()`, used to instantiate parametric
theorems at a concrete base. -/
def sampleBase : List (String × PyVal) :=
  [("rnn_cell", PyVal.none), ("use_embedding", PyVal.pybool true)]

theorem lookupEntry_setEntry_self {α : Type} (l : List (String × α))
    (k : String) (v : α) : lookupEntry (setEntry l k v) k = some v := by
  induction l with
  | nil => simp [setEntry, lookupEntry]
  | cons hd tl ih =>
    obtain ⟨k0, v0⟩ := hd
    by_cases h : k0 = k
    · simp [setEntry, lookupEntry, h]
    · simp [setEntry, lookupEntry, h, ih]

theorem lookupEntry_setEntry_ne {α : Type} (l : List (String × α))
    (k k2 : String) (v : α) (h : k ≠ k2) :
    lookupEntry (setEntry l k v) k2 = lookupEntry l k2 := by
  induction l with
  | nil => simp [setEntry, lookupEntry, h]
  | cons hd tl ih =>
    obtain ⟨k0, v0⟩ := hd
    by_cases h0 : k0 = k
    · subst h0; simp [setEntry, lookupEntry, h]
    · simp [setEntry, lookupEntry, h0, ih]

/-- Claim C1: both `BasicRNNDecoder` and `AttentionRNNDecoder` expose the
four-method decoder contract: callable `initialize`, `step` and `finalize`
methods plus the `output_size` and `output_dtype` properties, as the host
framework's generic decode loop requires. -/
theorem claim_C1_decoder_contract {T I S O Sid Al At L : Type}
    (db : BasicDecoderEnv T I S O Sid)
    (da : AttnDecoderEnv T I S O Sid Al At) :
    (BasicRNNDecoder.interface (L := L) db).initializeFn
        = BasicRNNDecoder.initializeFn db
    ∧ (BasicRNNDecoder.interface (L := L) db).step = BasicRNNDecoder.step db
    ∧ (BasicRNNDecoder.interface (L := L) db).finalize
        = BasicRNNDecoder.finalize
    ∧ (BasicRNNDecoder.interface (L := L) db).output_size
        = BasicRNNDecoder.output_size db.vocab_size
    ∧ (BasicRNNDecoder.interface (L := L) db).output_dtype
        = BasicRNNDecoder.output_dtype
    ∧ (AttentionRNNDecoder.interface (L := L) da).initializeFn
        = AttentionRNNDecoder.initializeFn da
    ∧ (AttentionRNNDecoder.interface (L := L) da).step
        = AttentionRNNDecoder.step da
    ∧ (AttentionRNNDecoder.interface (L := L) da).finalize
        = AttentionRNNDecoder.finalize
    ∧ (AttentionRNNDecoder.interface (L := L) da).output_size
        = AttentionRNNDecoder.output_size da
    ∧ (AttentionRNNDecoder.interface (L := L) da).output_dtype
        = AttentionRNNDecoder.output_dtype :=
  ⟨rfl, rfl, rfl, rfl, rfl, rfl, rfl, rfl, rfl, rfl⟩

/-- Claim C2 (refuted, code bug): reading `AttentionRNNDecoder.output_dtype`
does not return an `AttentionRNNDecoderOutput` of dtypes; it raises
`TypeError`, because the source constructs the namedtuple with the keyword
`logits`, which is not one of its fields. -/
theorem claim_C2_output_dtype_raises :
    AttentionRNNDecoder.output_dtype
      = Except.error "TypeError: unexpected keyword argument logits" := rfl

/-- Claim C3 (refuted, code bug): the configuration handling in
`AttentionRNNDecoder.__init__` raises on both documented ways of leaving
`hparams` unspecified: with `hparams = None` the subscript
`hparams["attention"]` raises `TypeError`, and with
`hparams = AttentionRNNDecoder.default_hparams()` the lookup
`hparams["attention"]["class"]` raises `KeyError` because the defaults
spell the key `"type"`, not `"class"`. -/
theorem claim_C3_init_hparams_raises (n ak avl : PyVal)
    (base : List (String × PyVal)) :
    AttentionRNNDecoder.initAttention n ak avl PyVal.none
        = Except.error "TypeError: NoneType object is not subscriptable"
    ∧ AttentionRNNDecoder.initAttention n ak avl
        (PyVal.dict (AttentionRNNDecoder.default_hparams base))
        = Except.error "KeyError: class" := by
  constructor
  · rfl
  · have h1 : lookupEntry (AttentionRNNDecoder.default_hparams base)
        "attention" = some attentionDefault :=
      lookupEntry_setEntry_self _ "attention" _
    simp only [AttentionRNNDecoder.initAttention, PyVal.subscript, h1]
    rfl

/-- Claim C4: on a configuration holding the `"class"`, `"params"` and
`"wrapper_params"` entries, `AttentionRNNDecoder.__init__` resolves the
configured attention class against `["txtgen.custom",
"tensorflow.contrib.seq2seq"]` with `num_units = n_hidden`,
`memory = attention_keys` and
`memory_sequence_length = attention_values_length`, wraps the decoder's
cell in an `AttentionWrapper`, and installs the wrapped cell. -/
theorem claim_C4_attention_construction (orig : CellRepr)
    (n ak avl c wp : PyVal) (ps : List (String × PyVal)) :
    let hp := PyVal.dict [("attention",
      PyVal.dict [("class", c), ("params", PyVal.dict ps),
                  ("wrapper_params", wp)])]
    let kw := setEntry (setEntry (setEntry ps "num_units" n)
      "memory_sequence_length" avl) "memory" ak
    AttentionRNNDecoder.initCell orig n ak avl hp
        = Except.ok (CellRepr.attentionWrapper orig
            ⟨c, PyVal.dict kw, attention_modules⟩ wp)
    ∧ lookupEntry kw "num_units" = some n
    ∧ lookupEntry kw "memory" = some ak
    ∧ lookupEntry kw "memory_sequence_length" = some avl
    ∧ attention_modules = ["txtgen.custom", "tensorflow.contrib.seq2seq"] := by
  refine ⟨rfl, ?_, ?_, ?_, rfl⟩
  · rw [lookupEntry_setEntry_ne _ "memory" "num_units" _ (by decide),
      lookupEntry_setEntry_ne _ "memory_sequence_length" "num_units" _
        (by decide)]
    exact lookupEntry_setEntry_self _ "num_units" _
  · exact lookupEntry_setEntry_self _ "memory" _
  · rw [lookupEntry_setEntry_ne _ "memory" "memory_sequence_length" _
      (by decide)]
    exact lookupEntry_setEntry_self _ "memory_sequence_length" _

/-- Claim C5: for both decoders and every `(time, inputs, state)`, `step`
returns a four-tuple `(outputs, next_state, next_inputs, finished)`, the
shape the host framework's dynamic-decode driver consumes between
`initialize` and `finalize`. -/
theorem claim_C5_step_four_tuple {T I S O Sid Al At : Type}
    (db : BasicDecoderEnv T I S O Sid)
    (da : AttnDecoderEnv T I S O Sid Al At) (t : T) (i : I) (s : S)
    (ws : AttentionWrapperState S Al At) :
    (∃ outputs next_state next_inputs finished,
      BasicRNNDecoder.step db t i s
        = (outputs, next_state, next_inputs, finished))
    ∧ (∃ outputs next_state next_inputs finished,
      AttentionRNNDecoder.step da t i ws
        = (outputs, next_state, next_inputs, finished)) :=
  ⟨⟨_, _, _, _, rfl⟩, ⟨_, _, _, _, rfl⟩⟩

/-- Claim C6: in `step` of both decoders, the `sample_id` field of the
returned outputs is exactly the helper's `sample` result on that step's
logits, and the `finished` flag of the returned four-tuple is exactly the
termination flag returned by the helper's `next_inputs`. -/
theorem claim_C6_helper_delegation {T I S O Sid Al At : Type}
    (db : BasicDecoderEnv T I S O Sid)
    (da : AttnDecoderEnv T I S O Sid Al At) (t : T) (i : I) (s : S)
    (ws : AttentionWrapperState S Al At) :
    (let r := db.cell i s
     let logits := db.fully_connected r.1 db.vocab_size
     let sids := db.helper_sample t logits r.2
     (BasicRNNDecoder.step db t i s).1.sample_id = sids
     ∧ (BasicRNNDecoder.step db t i s).2.2.2
         = (db.helper_next_inputs t logits r.2 sids).1)
    ∧ (let ws2 := (da.cell i ws).2
       let logits := da.fully_connected (da.cell i ws).1 da.vocab_size
       let sids := da.helper_sample t logits ws2.cell_state
       (AttentionRNNDecoder.step da t i ws).1.sample_id = sids
       ∧ (AttentionRNNDecoder.step da t i ws).2.2.2
           = (da.helper_next_inputs t logits ws2 sids).1) :=
  ⟨⟨rfl, rfl⟩, ⟨rfl, rfl⟩⟩

/-- Claim C7: `AttentionRNNDecoder.step` invokes the wrapped cell twice on
the identical `(inputs, state)` pair; with the cell a deterministic
function, it is observationally equal to the refactored step that invokes
the cell exactly once and reuses the single result. -/
theorem claim_C7_step_single_cell_call {T I S O Sid Al At : Type}
    (da : AttnDecoderEnv T I S O Sid Al At) (t : T) (i : I)
    (ws : AttentionWrapperState S Al At) :
    AttentionRNNDecoder.step da t i ws
      = AttentionRNNDecoder.stepRefactored da t i ws := rfl

/-- Claim C8: for both decoders, `initialize` returns a three-element
sequence whose first two elements are the helper's `(finished,
first_inputs)` pair and whose third element is the decoder's initial
state. -/
theorem claim_C8_initialize_triple {T I S O Sid Al At : Type}
    (db : BasicDecoderEnv T I S O Sid)
    (da : AttnDecoderEnv T I S O Sid Al At) :
    BasicRNNDecoder.initializeFn db
        = (db.helper_init.1, db.helper_init.2, db.initial_state)
    ∧ AttentionRNNDecoder.initializeFn da
        = (da.helper_init.1, da.helper_init.2, da.initial_state) :=
  ⟨rfl, rfl⟩

/-- Claim C9: for both decoders and all arguments, `finalize` returns its
first two arguments unchanged and ignores `sequence_lengths`. -/
theorem claim_C9_finalize_identity {O S L : Type} (o : O) (s : S) (l : L) :
    BasicRNNDecoder.finalize o s l = (o, s)
    ∧ AttentionRNNDecoder.finalize o s l = (o, s) := ⟨rfl, rfl⟩

/-- Claim C10: `BasicRNNDecoder.default_hparams()` is the base defaults
with only `"name"` changed to `"basic_rnn_decoder"`;
`AttentionRNNDecoder.default_hparams()` is the base defaults with `"name"`
changed to `"attention_rnn_decoder"` and the single `"attention"` entry
set to the fixed dictionary; every other entry is unchanged. -/
theorem claim_C10_default_hparams (base : List (String × PyVal))
    (k : String) (hk1 : k ≠ "name") (hk2 : k ≠ "attention") :
    lookupEntry (BasicRNNDecoder.default_hparams base) "name"
        = some (PyVal.str "basic_rnn_decoder")
    ∧ lookupEntry (BasicRNNDecoder.default_hparams base) k
        = lookupEntry base k
    ∧ lookupEntry (AttentionRNNDecoder.default_hparams base) "name"
        = some (PyVal.str "attention_rnn_decoder")
    ∧ lookupEntry (AttentionRNNDecoder.default_hparams base) "attention"
        = some attentionDefault
    ∧ lookupEntry (AttentionRNNDecoder.default_hparams base) k
        = lookupEntry base k := by
  refine ⟨?_, ?_, ?_, ?_, ?_⟩
  · exact lookupEntry_setEntry_self base "name" _
  · exact lookupEntry_setEntry_ne base "name" k _ (Ne.symm hk1)
  · unfold AttentionRNNDecoder.default_hparams
    rw [lookupEntry_setEntry_ne _ "attention" "name" _ (by decide)]
    exact lookupEntry_setEntry_self base "name" _
  · exact lookupEntry_setEntry_self _ "attention" _
  · unfold AttentionRNNDecoder.default_hparams
    rw [lookupEntry_setEntry_ne _ "attention" k _ (Ne.symm hk2)]
    exact lookupEntry_setEntry_ne base "name" k _ (Ne.symm hk1)

/-- Witness for claim C10, at the concrete base `sampleBase` and the
concrete key `"rnn_cell"`. -/
theorem claim_C10_default_hparams_witness :
    (("rnn_cell" : String) ≠ "name" ∧ ("rnn_cell" : String) ≠ "attention")
    ∧ (lookupEntry (BasicRNNDecoder.default_hparams sampleBase) "name"
        = some (PyVal.str "basic_rnn_decoder")
      ∧ lookupEntry (BasicRNNDecoder.default_hparams sampleBase) "rnn_cell"
        = lookupEntry sampleBase "rnn_cell"
      ∧ lookupEntry (AttentionRNNDecoder.default_hparams sampleBase) "name"
        = some (PyVal.str "attention_rnn_decoder")
      ∧ lookupEntry (AttentionRNNDecoder.default_hparams sampleBase)
          "attention" = some attentionDefault
      ∧ lookupEntry (AttentionRNNDecoder.default_hparams sampleBase)
          "rnn_cell" = lookupEntry sampleBase "rnn_cell") :=
  ⟨⟨by decide, by decide⟩,
   claim_C10_default_hparams sampleBase "rnn_cell" (by decide) (by decide)⟩

end RnnDecoders
